import Mathlib

/-!
Verification of the CRM access layer of the Chatbot repository.

The development shallowly embeds the two near-duplicate Python modules
`zoho_crm.py` and `zoho_utils.py`.  Python values (JSON payloads, records,
partition mappings) are embedded as the inductive type `Val`; Python
exceptions are embedded as `Except String`; the network and the OAuth token
endpoint are embedded as an environment `ApiEnv` giving the outcome of each
successive GET request and of each successive token refresh, threaded through
an explicit `ApiState`.
-/

/-- Embedded Python value: None, bool, int, str, list, dict. -/
inductive Val where
  | vnull
  | vbool (b : Bool)
  | vint (n : Int)
  | vstr (s : String)
  | vlist (xs : List Val)
  | vdict (kvs : List (Val × Val))

open Val

mutual

/-- Structural Boolean equality on embedded values. -/
def Val.beq : Val → Val → Bool
  | vnull, vnull => true
  | vbool a, vbool b => a = b
  | vint a, vint b => a = b
  | vstr a, vstr b => a = b
  | vlist a, vlist b => beqL a b
  | vdict a, vdict b => beqP a b
  | _, _ => false

def beqL : List Val → List Val → Bool
  | [], [] => true
  | x :: xs, y :: ys => Val.beq x y && beqL xs ys
  | _, _ => false

def beqP : List (Val × Val) → List (Val × Val) → Bool
  | [], [] => true
  | (k, v) :: xs, (k', v') :: ys => Val.beq k k' && Val.beq v v' && beqP xs ys
  | _, _ => false

end

mutual

theorem beq_eq : ∀ a b : Val, Val.beq a b = true ↔ a = b
  | vnull, vnull => by simp [Val.beq]
  | vbool a, vbool b => by simp [Val.beq]
  | vint a, vint b => by simp [Val.beq]
  | vstr a, vstr b => by simp [Val.beq]
  | vlist a, vlist b => by simp [Val.beq, beqL_eq a b]
  | vdict a, vdict b => by simp [Val.beq, beqP_eq a b]
  | vnull, vbool _ | vnull, vint _ | vnull, vstr _ | vnull, vlist _ | vnull, vdict _ => by simp [Val.beq]
  | vbool _, vnull | vbool _, vint _ | vbool _, vstr _ | vbool _, vlist _ | vbool _, vdict _ => by simp [Val.beq]
  | vint _, vnull | vint _, vbool _ | vint _, vstr _ | vint _, vlist _ | vint _, vdict _ => by simp [Val.beq]
  | vstr _, vnull | vstr _, vbool _ | vstr _, vint _ | vstr _, vlist _ | vstr _, vdict _ => by simp [Val.beq]
  | vlist _, vnull | vlist _, vbool _ | vlist _, vint _ | vlist _, vstr _ | vlist _, vdict _ => by simp [Val.beq]
  | vdict _, vnull | vdict _, vbool _ | vdict _, vint _ | vdict _, vstr _ | vdict _, vlist _ => by simp [Val.beq]

theorem beqL_eq : ∀ a b : List Val, beqL a b = true ↔ a = b
  | [], [] => by simp [beqL]
  | x :: xs, y :: ys => by simp [beqL, beq_eq x y, beqL_eq xs ys]
  | [], _ :: _ => by simp [beqL]
  | _ :: _, [] => by simp [beqL]

theorem beqP_eq : ∀ a b : List (Val × Val), beqP a b = true ↔ a = b
  | [], [] => by simp [beqP]
  | (k, v) :: xs, (k', v') :: ys => by
    simp [beqP, beq_eq k k', beq_eq v v', beqP_eq xs ys, and_assoc, Prod.ext_iff]
  | [], _ :: _ => by simp [beqP]
  | _ :: _, [] => by simp [beqP]

end

instance : DecidableEq Val := fun a b => decidable_of_iff _ (beq_eq a b)

/-! ## Embedded Python primitive semantics -/

/-- Python truthiness. -/
def Val.truthy : Val → Bool
  | vnull => false
  | vbool b => b
  | vint n => decide (n ≠ 0)
  | vstr s => decide (s ≠ "")
  | vlist xs => decide (xs ≠ [])
  | vdict kvs => decide (kvs ≠ [])

/-- Python hashability: lists and dicts are unhashable. -/
def hashableV : Val → Bool
  | vlist _ => false
  | vdict _ => false
  | _ => true

/-- First-match association lookup, the semantics of indexing a dict whose
keys are unique. -/
def lookupV : List (Val × Val) → Val → Option Val
  | [], _ => none
  | (k, v) :: rest, key => if k = key then some v else lookupV rest key

/-- Lookup with a default, the semantics of `dict.get(key, default)`. -/
def lookupD (kvs : List (Val × Val)) (key dflt : Val) : Val :=
  (lookupV kvs key).getD dflt

/-- Whether a dict association list carries the given key. -/
def hasKeyB (kvs : List (Val × Val)) (key : Val) : Bool :=
  kvs.any (fun kv => decide (kv.1 = key))

/-- Semantics of `container.get(key, default)`: raises unless the receiver is
a dict with a hashable key. -/
def pyGetD : Val → Val → Val → Except String Val
  | vdict kvs, key, dflt =>
    if hashableV key then .ok (lookupD kvs key dflt)
    else .error ("TypeError: unhashable type")
  | _, _, _ => .error ("AttributeError: object has no attribute get")

/-- Semantics of `container[key]`. -/
def pyIndex : Val → Val → Except String Val
  | vdict kvs, key =>
    if hashableV key then
      match lookupV kvs key with
      | some v => .ok v
      | none => .error ("KeyError")
    else .error ("TypeError: unhashable type")
  | vlist xs, vint n =>
    if 0 ≤ n ∧ n < xs.length then .ok (xs.getD n.toNat vnull)
    else .error ("IndexError: list index out of range")
  | vlist _, _ => .error ("TypeError: list indices must be integers")
  | vstr _, _ => .error ("TypeError: string indices must be integers")
  | _, _ => .error ("TypeError: object is not subscriptable")

/-- Characters of a string as one-character string values. -/
def charVals (s : String) : List Val :=
  s.data.map (fun c => vstr (String.mk [c]))

/-- Semantics of Boolean `needle in container` for a string needle. -/
def strContainsCL : List Char → List Char → Bool
  | _, [] => true
  | [], _ :: _ => false
  | l@(_ :: rest), pat => startsWithCL l pat || strContainsCL rest pat
where
  startsWithCL : List Char → List Char → Bool
    | _, [] => true
    | [], _ :: _ => false
    | x :: xs, y :: ys => x = y && startsWithCL xs ys

/-- Semantics of `needle in container`. -/
def pyContains (needle : Val) : Val → Except String Bool
  | vdict kvs => .ok (hasKeyB kvs needle)
  | vlist xs => .ok (xs.any (fun x => decide (x = needle)))
  | vstr s =>
    match needle with
    | vstr n => .ok (strContainsCL s.data n.data)
    | _ => .error ("TypeError: in requires string as left operand")
  | _ => .error ("TypeError: argument of type is not iterable")

/-- Semantics of `for x in container`: lists yield elements, dicts yield
keys, strings yield one-character strings. -/
def pyIter : Val → Except String (List Val)
  | vlist xs => .ok xs
  | vdict kvs => .ok (kvs.map Prod.fst)
  | vstr s => .ok (charVals s)
  | _ => .error ("TypeError: object is not iterable")

/-- Semantics of `len(container)`. -/
def pyLen : Val → Except String Nat
  | vlist xs => .ok xs.length
  | vdict kvs => .ok kvs.length
  | vstr s => .ok s.data.length
  | _ => .error ("TypeError: object has no len")

/-- ASCII-faithful lowercasing that reduces in the kernel. -/
def lowerStr (s : String) : String := String.mk (s.data.map Char.toLower)

/-- Semantics of `s.lower()`. -/
def pyLower : Val → Except String String
  | vstr s => .ok (lowerStr s)
  | _ => .error ("AttributeError: object has no attribute lower")

/-- Semantics of `s.strip()`. -/
def stripStr (s : String) : String :=
  String.mk (((s.data.dropWhile Char.isWhitespace).reverse.dropWhile Char.isWhitespace).reverse)

mutual

/-- Python `repr` of an embedded value (used by `str` on containers). -/
def pyRepr : Val → String
  | vnull => "None"
  | vbool true => "True"
  | vbool false => "False"
  | vint n => toString n
  | vstr s => "\x27" ++ s ++ "\x27"
  | vlist xs => "[" ++ pyReprList xs ++ "]"
  | vdict kvs => "\x7b" ++ pyReprPairs kvs ++ "\x7d"

def pyReprList : List Val → String
  | [] => ""
  | [x] => pyRepr x
  | x :: xs => pyRepr x ++ ", " ++ pyReprList xs

def pyReprPairs : List (Val × Val) → String
  | [] => ""
  | [(k, v)] => pyRepr k ++ ": " ++ pyRepr v
  | (k, v) :: xs => pyRepr k ++ ": " ++ pyRepr v ++ ", " ++ pyReprPairs xs

end

/-- Semantics of `str(v)`. -/
def pyStr : Val → String
  | vstr s => s
  | v => pyRepr v

/-- Append a value under a key, the semantics of
`defaultdict(list)[key].append(x)` followed at the end by `dict(...)`:
first occurrence of the key is extended in place, a fresh key is appended
in insertion order. -/
def pushList : Val → Val → Val
  | vlist xs, x => vlist (xs ++ [x])
  | _, x => vlist [x]

def dictAppend : List (Val × Val) → Val → Val → List (Val × Val)
  | [], key, x => [(key, vlist [x])]
  | (k, v) :: rest, key, x =>
    if k = key then (k, pushList v x) :: rest
    else (k, v) :: dictAppend rest key x

/-! ## HTTP layer: token manager and request executor

`zoho_crm.py` and `zoho_utils.py` contain the same `refresh_access_token`,
`get_headers` and `make_api_request` (zoho_crm.py lines 36-124,
zoho_utils.py lines 37-125); they are embedded once.  The network is an
environment giving the outcome of the i-th GET issued and of the i-th
refresh POST; the process-global `access_token` is the Boolean
`hasToken` of the threaded state. -/

/-- Outcome of one `requests.get` call: a response with a status code, raw
text and (for 200s) a parse attempt of the JSON body, or a
`RequestException`, or any other exception. -/
inductive GetOutcome where
  | resp (status : Nat) (text : String) (body : Except String Val)
  | netExn (msg : String)
  | otherExn (msg : String)

/-- Outcome of one `refresh_access_token` token-endpoint exchange: success
stores a fresh access token; a failure either leaves the stored token as it
was (non-200 response, network error) or clears it (200 response whose JSON
carries no access_token field). -/
inductive RefreshOutcome where
  | success
  | failKeep
  | failClear

structure ApiEnv where
  getOutcome : Nat → GetOutcome
  refreshOutcome : Nat → RefreshOutcome
  configOk : Bool

structure ApiState where
  hasToken : Bool
  gets : Nat
  refreshes : Nat
deriving DecidableEq

/-- zoho_crm.py lines 36-74: `refresh_access_token`.  Validates the
configuration, then performs the exchange; on success the shared token
state is replaced. -/
def refresh_access_token (env : ApiEnv) (st : ApiState) : Bool × ApiState :=
  if env.configOk = false then (false, st)
  else
    match env.refreshOutcome st.refreshes with
    | .success => (true, ⟨true, st.gets, st.refreshes + 1⟩)
    | .failKeep => (false, ⟨st.hasToken, st.gets, st.refreshes + 1⟩)
    | .failClear => (false, ⟨false, st.gets, st.refreshes + 1⟩)

/-- zoho_crm.py lines 76-88: `get_headers`.  Returns whether a header set
could be produced, refreshing first when no token is held. -/
def get_headers (env : ApiEnv) (st : ApiState) : Bool × ApiState :=
  if st.hasToken then (true, st)
  else refresh_access_token env st

/-- The mapping value returned on every failure path of
`make_api_request`. -/
def errDict (msg : String) : Val := vdict [(vstr ("Error"), vstr msg)]

/-- zoho_crm.py lines 92-123: the body of the retry loop
`for attempt in range(max_retries + 1)`.  `fuel` counts the iterations the
range still holds, so the iteration with fuel `f + 1` runs attempt number
`maxRetries - f`; falling off the loop returns the final
"Max retries exceeded" mapping of line 124. -/
def apiLoop (env : ApiEnv) (maxRetries : Nat) : Nat → ApiState → Val × ApiState
  | 0, st => (errDict ("Max retries exceeded"), st)
  | fuel + 1, st =>
    let attempt := maxRetries - fuel
    match get_headers env st with
    | (false, st1) => (errDict ("Unable to get valid headers for API request"), st1)
    | (true, st1) =>
      let st2 : ApiState := ⟨st1.hasToken, st1.gets + 1, st1.refreshes⟩
      match env.getOutcome st1.gets with
      | .resp status text body =>
        if status = 200 then
          match body with
          | .ok v => (v, st2)
          | .error e => (errDict (("Unexpected error during API request: ") ++ e), st2)
        else if status = 401 ∧ attempt < maxRetries then
          match refresh_access_token env st2 with
          | (true, st3) => apiLoop env maxRetries fuel st3
          | (false, st3) => (errDict ("Unable to refresh access token"), st3)
        else
          (errDict (("API request failed: ") ++ toString status ++ (" - ") ++ text), st2)
      | .netExn msg =>
        if attempt = maxRetries then
          (errDict (("Network error during API request: ") ++ msg), st2)
        else apiLoop env maxRetries fuel st2
      | .otherExn msg =>
        (errDict (("Unexpected error during API request: ") ++ msg), st2)

/-- zoho_crm.py lines 90-124: `make_api_request(url, max_retries=2)`. -/
def make_api_request (env : ApiEnv) (st : ApiState) (maxRetries : Nat) : Val × ApiState :=
  apiLoop env maxRetries (maxRetries + 1) st

/-- Initial state holding a seeded access token and zero issued requests. -/
def tokenState0 : ApiState := ⟨true, 0, 0⟩

/-! ## Shared facade machinery

Each entity facade performs: fetch via `make_api_request`, detect the
error marker, detect an empty page, then a per-record loop whose body is
wrapped in its own try/except so that one bad record is skipped and never
aborts the batch.  The whole body sits in an outer try/except that converts
any escaped exception into an `Error` mapping. -/

/-- Per-record accumulation step: normalize; on success append under the
owner key, on a per-record exception skip the record. -/
def stepOf (norm : Val → Except String (Val × Val)) (acc : List (Val × Val)) (r : Val) :
    List (Val × Val) :=
  match norm r with
  | .ok (k, d) => dictAppend acc k d
  | .error _ => acc

/-- The try-block of an entity facade, applied to the value
`make_api_request` returned. -/
def facadeCore (sentinel : String) (step : List (Val × Val) → Val → List (Val × Val))
    (response_data : Val) : Except String Val :=
  match pyContains (vstr ("Error")) response_data with
  | .error e => .error e
  | .ok true =>
    match pyIndex response_data (vstr ("Error")) with
    | .error e => .error e
    | .ok ev => .ok (vdict [(vstr ("Error"), vlist [ev])])
  | .ok false =>
    match pyGetD response_data (vstr ("data")) (vlist []) with
    | .error e => .error e
    | .ok data =>
      if data.truthy = false then .ok (vdict [(vstr sentinel, vlist [])])
      else
        match pyIter data with
        | .error e => .error e
        | .ok records => .ok (vdict (records.foldl step []))

/-- The outer `except Exception` of an entity facade. -/
def catchAll : Except String Val → Val
  | .ok v => v
  | .error e => vdict [(vstr ("Error"), vlist [vstr (("Unexpected error: ") ++ e)])]

/-- Fetch-normalize-partition cycle of one entity facade. -/
def runFacade (env : ApiEnv) (st : ApiState) (sentinel : String)
    (step : List (Val × Val) → Val → List (Val × Val)) : Val × ApiState :=
  let p := make_api_request env st 2
  (catchAll (facadeCore sentinel step p.1), p.2)

namespace ZohoCrm

/-- zoho_crm.py lines 126-133: `_extract_name`. -/
def _extract_name : Val → Val
  | vdict kvs => lookupD kvs (vstr ("name")) (vstr ("Unknown"))
  | vstr s => vstr s
  | _ => vnull

/-- zoho_crm.py lines 152-177 (loop body of `get_deals`): build the
normalized deal record and its partition key.  Any `.get` on a non-dict
record, or an unhashable owner key at the `filtered_deals[owner]` access,
raises inside the per-record try. -/
def normDeal (deal : Val) : Except String (Val × Val) :=
  match deal with
  | vdict kvs =>
    let deal_data := vdict [
      (vstr ("Deal ID"), lookupD kvs (vstr ("id")) vnull),
      (vstr ("Deal Name"), lookupD kvs (vstr ("Deal_Name")) (vstr ("Unnamed Deal"))),
      (vstr ("Account Name"), _extract_name (lookupD kvs (vstr ("Account_Name")) vnull)),
      (vstr ("Deal Owner"), _extract_name (lookupD kvs (vstr ("Owner")) vnull)),
      (vstr ("Stage"), lookupD kvs (vstr ("Stage")) (vstr ("Unknown"))),
      (vstr ("Amount"), lookupD kvs (vstr ("Amount")) vnull),
      (vstr ("Closing Date"), lookupD kvs (vstr ("Closing_Date")) vnull),
      (vstr ("Service Line"), lookupD kvs (vstr ("Service_Line")) vnull),
      (vstr ("Accelerators/Personalized Service"),
        lookupD kvs (vstr ("Accelerators_or_Personalized_Service")) vnull),
      (vstr ("Tags"), lookupD kvs (vstr ("Tags")) vnull),
      (vstr ("Created Time"), lookupD kvs (vstr ("Created_Time")) vnull),
      (vstr ("Modified Time"), lookupD kvs (vstr ("Modified_Time")) vnull)]
    let owner := _extract_name (lookupD kvs (vstr ("Owner")) vnull)
    let key := if owner.truthy then owner else vstr ("Unknown Owner")
    if hashableV key then .ok (key, deal_data)
    else .error ("TypeError: unhashable type")
  | _ => .error ("AttributeError: object has no attribute get")

/-- zoho_crm.py lines 203-227 (loop body of `get_leads`). -/
def normLead (lead : Val) : Except String (Val × Val) :=
  match lead with
  | vdict kvs =>
    let lead_data := vdict [
      (vstr ("Lead ID"), lookupD kvs (vstr ("id")) vnull),
      (vstr ("Lead Name"), lookupD kvs (vstr ("Full_Name")) (vstr ("Unnamed Lead"))),
      (vstr ("Company"), lookupD kvs (vstr ("Company")) (vstr ("No Company"))),
      (vstr ("Lead Owner"), _extract_name (lookupD kvs (vstr ("Owner")) vnull)),
      (vstr ("Email"), lookupD kvs (vstr ("Email")) (vstr ("No Email"))),
      (vstr ("Phone"), lookupD kvs (vstr ("Phone")) (vstr ("No Phone"))),
      (vstr ("Lead Status"), lookupD kvs (vstr ("Lead_Status")) (vstr ("Unknown"))),
      (vstr ("Lead Source"), lookupD kvs (vstr ("Lead_Source")) (vstr ("Unknown"))),
      (vstr ("Tags"), lookupD kvs (vstr ("Tag")) (vlist [])),
      (vstr ("Created Time"), lookupD kvs (vstr ("Created_Time")) vnull),
      (vstr ("Modified Time"), lookupD kvs (vstr ("Modified_Time")) vnull)]
    let owner := _extract_name (lookupD kvs (vstr ("Owner")) vnull)
    let key := if owner.truthy then owner else vstr ("Unknown Owner")
    if hashableV key then .ok (key, lead_data)
    else .error ("TypeError: unhashable type")
  | _ => .error ("AttributeError: object has no attribute get")

/-- zoho_crm.py lines 253-277 (loop body of `get_tasks`). -/
def normTask (task : Val) : Except String (Val × Val) :=
  match task with
  | vdict kvs =>
    let task_data := vdict [
      (vstr ("Task ID"), lookupD kvs (vstr ("id")) vnull),
      (vstr ("Task Subject"), lookupD kvs (vstr ("Subject")) (vstr ("Unnamed Task"))),
      (vstr ("Task Owner"), _extract_name (lookupD kvs (vstr ("Owner")) vnull)),
      (vstr ("Status"), lookupD kvs (vstr ("Status")) (vstr ("Not Started"))),
      (vstr ("Priority"), lookupD kvs (vstr ("Priority")) (vstr ("Normal"))),
      (vstr ("Due Date"), lookupD kvs (vstr ("Due_Date")) vnull),
      (vstr ("Related To"), _extract_name (lookupD kvs (vstr ("What_Id")) vnull)),
      (vstr ("Start Date"), lookupD kvs (vstr ("Start_Date")) vnull),
      (vstr ("Description"), lookupD kvs (vstr ("Description")) (vstr ("No Description"))),
      (vstr ("Created Time"), lookupD kvs (vstr ("Created_Time")) vnull),
      (vstr ("Modified Time"), lookupD kvs (vstr ("Modified_Time")) vnull)]
    let owner := _extract_name (lookupD kvs (vstr ("Owner")) vnull)
    let key := if owner.truthy then owner else vstr ("Unknown Owner")
    if hashableV key then .ok (key, task_data)
    else .error ("TypeError: unhashable type")
  | _ => .error ("AttributeError: object has no attribute get")

/-- zoho_crm.py lines 303-324 (loop body of `get_notes`): the nested
`note.get("Parent_Id", {}).get("module", "Unknown")` raises when Parent_Id
holds a non-dict value. -/
def normNote (note : Val) : Except String (Val × Val) :=
  match note with
  | vdict kvs =>
    match pyGetD (lookupD kvs (vstr ("Parent_Id")) (vdict [])) (vstr ("module"))
        (vstr ("Unknown")) with
    | .error e => .error e
    | .ok parentModule =>
      let note_data := vdict [
        (vstr ("Note ID"), lookupD kvs (vstr ("id")) vnull),
        (vstr ("Note Title"), lookupD kvs (vstr ("Note_Title")) (vstr ("Untitled Note"))),
        (vstr ("Note Content"), lookupD kvs (vstr ("Note_Content")) (vstr ("No Content"))),
        (vstr ("Note Owner"), _extract_name (lookupD kvs (vstr ("Owner")) vnull)),
        (vstr ("Parent Module"), parentModule),
        (vstr ("Parent Record"), _extract_name (lookupD kvs (vstr ("Parent_Id")) vnull)),
        (vstr ("Created Time"), lookupD kvs (vstr ("Created_Time")) vnull),
        (vstr ("Modified Time"), lookupD kvs (vstr ("Modified_Time")) vnull)]
      let owner := _extract_name (lookupD kvs (vstr ("Owner")) vnull)
      let key := if owner.truthy then owner else vstr ("Unknown Owner")
      if hashableV key then .ok (key, note_data)
      else .error ("TypeError: unhashable type")
  | _ => .error ("AttributeError: object has no attribute get")

/-- zoho_crm.py lines 135-184: `get_deals`. -/
def get_deals (env : ApiEnv) (st : ApiState) : Val × ApiState :=
  runFacade env st ("No Deals") (stepOf normDeal)

/-- zoho_crm.py lines 186-234: `get_leads`. -/
def get_leads (env : ApiEnv) (st : ApiState) : Val × ApiState :=
  runFacade env st ("No Leads") (stepOf normLead)

/-- zoho_crm.py lines 236-284: `get_tasks`. -/
def get_tasks (env : ApiEnv) (st : ApiState) : Val × ApiState :=
  runFacade env st ("No Tasks") (stepOf normTask)

/-- zoho_crm.py lines 286-331: `get_notes`. -/
def get_notes (env : ApiEnv) (st : ApiState) : Val × ApiState :=
  runFacade env st ("No Notes") (stepOf normNote)

end ZohoCrm


namespace ZohoCrm

/-- zoho_crm.py lines 333-340: `filter_data_by_owner`.  Requesting "All"
or a falsy owner returns the mapping unchanged; otherwise the single
owner's stored list (or `[]`) is returned. -/
def filter_data_by_owner (data owner_name : Val) : Except String Val :=
  if owner_name = vstr ("All") ∨ owner_name.truthy = false then .ok data
  else
    match data with
    | vdict kvs =>
      if hashableV owner_name then .ok (lookupD kvs owner_name (vlist []))
      else .error ("TypeError: unhashable type")
    | _ => .ok (vlist [])

/-- zoho_crm.py lines 364-378 ("All" branch of `get_crm_summary`): flatten
an owner-partitioned mapping, keeping only the values that are lists. -/
def flattenVals : Val → Except String (List Val)
  | vdict kvs =>
    .ok (kvs.foldl (fun acc kv => match kv.2 with | vlist xs => acc ++ xs | _ => acc) [])
  | _ => .error ("AttributeError: object has no attribute values")

/-- Python numeric value of a summand accepted by `sum`. -/
def toNum : Val → Except String Int
  | vint n => .ok n
  | vbool b => .ok (if b then 1 else 0)
  | _ => .error ("TypeError: unsupported operand type for +")

/-- zoho_crm.py line 381 (and 383):
`sum(deal.get('Amount', 0) for deal in deals if deal.get('Amount'))`. -/
def sumTruthyAmounts : List Val → Except String Int
  | [] => .ok 0
  | d :: ds =>
    match pyGetD d (vstr ("Amount")) vnull with
    | .error e => .error e
    | .ok a =>
      if a.truthy then
        match toNum a with
        | .error e => .error e
        | .ok n =>
          match sumTruthyAmounts ds with
          | .error e => .error e
          | .ok rest => .ok (n + rest)
      else sumTruthyAmounts ds

/-- zoho_crm.py line 382:
`[deal for deal in deals if deal.get('Stage', '').lower() == 'closed won']`. -/
def filterClosed : List Val → Except String (List Val)
  | [] => .ok []
  | d :: ds =>
    match pyGetD d (vstr ("Stage")) (vstr ("")) with
    | .error e => .error e
    | .ok s =>
      match pyLower s with
      | .error e => .error e
      | .ok low =>
        match filterClosed ds with
        | .error e => .error e
        | .ok rest =>
          if low = ("closed won") then .ok (d :: rest) else .ok rest

/-- zoho_crm.py lines 380-383: the deal metrics
(total_deal_value, closed deals, closed_deal_value). -/
def dealMetrics (dealsV : Val) : Except String (Int × List Val × Int) :=
  match pyIter dealsV with
  | .error e => .error e
  | .ok ds =>
    match sumTruthyAmounts ds with
    | .error e => .error e
    | .ok total =>
      match filterClosed ds with
      | .error e => .error e
      | .ok closed =>
        match sumTruthyAmounts closed with
        | .error e => .error e
        | .ok closedValue => .ok (total, closed, closedValue)

/-- zoho_crm.py lines 402-416: the zeroed result built when anything in
`get_crm_summary` raises. -/
def zeroSummary : Val := vdict [
  (vstr ("leads"), vlist []),
  (vstr ("deals"), vlist []),
  (vstr ("tasks"), vlist []),
  (vstr ("notes"), vlist []),
  (vstr ("summary"), vdict [
    (vstr ("total_leads"), vint 0),
    (vstr ("total_deals"), vint 0),
    (vstr ("total_tasks"), vint 0),
    (vstr ("total_notes"), vint 0),
    (vstr ("total_deal_value"), vint 0),
    (vstr ("closed_deals"), vint 0),
    (vstr ("closed_deal_value"), vint 0)])]

/-- zoho_crm.py lines 351-398: the try-block of `get_crm_summary` applied
to the four fetched mappings. -/
def summaryCore (leads_data deals_data tasks_data notes_data owner_name : Val) :
    Except String Val :=
  match
    (if owner_name = vstr ("All") then
      match flattenVals leads_data, flattenVals deals_data,
          flattenVals tasks_data, flattenVals notes_data with
      | .ok ls, .ok ds, .ok ts, .ok ns => .ok (vlist ls, vlist ds, vlist ts, vlist ns)
      | .error e, _, _, _ => .error e
      | _, .error e, _, _ => .error e
      | _, _, .error e, _ => .error e
      | _, _, _, .error e => .error e
    else
      match filter_data_by_owner leads_data owner_name,
          filter_data_by_owner deals_data owner_name,
          filter_data_by_owner tasks_data owner_name,
          filter_data_by_owner notes_data owner_name with
      | .ok ls, .ok ds, .ok ts, .ok ns => .ok (ls, ds, ts, ns)
      | .error e, _, _, _ => .error e
      | _, .error e, _, _ => .error e
      | _, _, .error e, _ => .error e
      | _, _, _, .error e => .error e : Except String (Val × Val × Val × Val)) with
  | .error e => .error e
  | .ok (leads, deals, tasks, notes) =>
    match dealMetrics deals with
    | .error e => .error e
    | .ok (total, closed, closedValue) =>
      match pyLen leads, pyLen deals, pyLen tasks, pyLen notes with
      | .ok nl, .ok nd, .ok nt, .ok nn =>
        .ok (vdict [
          (vstr ("leads"), leads),
          (vstr ("deals"), deals),
          (vstr ("tasks"), tasks),
          (vstr ("notes"), notes),
          (vstr ("summary"), vdict [
            (vstr ("total_leads"), vint nl),
            (vstr ("total_deals"), vint nd),
            (vstr ("total_tasks"), vint nt),
            (vstr ("total_notes"), vint nn),
            (vstr ("total_deal_value"), vint total),
            (vstr ("closed_deals"), vint closed.length),
            (vstr ("closed_deal_value"), vint closedValue)])])
      | .error e, _, _, _ => .error e
      | _, .error e, _, _ => .error e
      | _, _, .error e, _ => .error e
      | _, _, _, .error e => .error e

/-- zoho_crm.py lines 342-416: `get_crm_summary(owner_name="All")`.
Fetches leads, deals, tasks and notes in that order, filters or flattens,
computes the metrics, and degrades to the zeroed result on any
exception. -/
def get_crm_summary (env : ApiEnv) (st : ApiState) (owner_name : Val) : Val × ApiState :=
  let pl := get_leads env st
  let pd := get_deals env pl.2
  let pt := get_tasks env pd.2
  let pn := get_notes env pt.2
  (match summaryCore pl.1 pd.1 pt.1 pn.1 owner_name with
   | .ok v => v
   | .error _ => zeroSummary, pn.2)

/-- zoho_crm.py lines 418-434: `test_connection`. -/
def test_connection (env : ApiEnv) (st : ApiState) : (Bool × String) × ApiState :=
  if env.configOk = false then ((false, ("Configuration missing")), st)
  else
    let p := make_api_request env st 2
    (match pyContains (vstr ("Error")) p.1 with
     | .ok true =>
       match pyIndex p.1 (vstr ("Error")) with
       | .ok ev => (false, ("API connection failed: ") ++ pyStr ev)
       | .error e => (false, ("Connection error: ") ++ e)
     | .ok false => (true, ("API connection successful"))
     | .error e => (false, ("Connection error: ") ++ e), p.2)

/-- Inner loop of the derived stage/status filters (zoho_crm.py lines
449-451 and analogues): append to `filtered[owner]` each record of one
owner whose field text lowercases to the needle. -/
def filterRecords (field needleLow : String) (owner : Val)
    (acc : List (Val × Val)) : List Val → Except String (List (Val × Val))
  | [] => .ok acc
  | d :: ds =>
    match pyGetD d (vstr field) (vstr ("")) with
    | .error e => .error e
    | .ok s =>
      match pyLower s with
      | .error e => .error e
      | .ok low =>
        filterRecords field needleLow owner
          (if low = needleLow then dictAppend acc owner d else acc) ds

/-- Outer loop of the derived filters over `deals.items()`. -/
def filterLoop (field needleLow : String) (acc : List (Val × Val)) :
    List (Val × Val) → Except String (List (Val × Val))
  | [] => .ok acc
  | (owner, ov) :: rest =>
    match pyIter ov with
    | .error e => .error e
    | .ok records =>
      match filterRecords field needleLow owner acc records with
      | .error e => .error e
      | .ok acc' => filterLoop field needleLow acc' rest

/-- Try-block shared by `get_deals_by_stage`, `get_tasks_by_status` and
`get_leads_by_status`, applied to the fetched mapping: pass errors and a
falsy needle through unchanged, otherwise rebuild the partition from the
matching records only. -/
def byFieldCore (field : String) (needle : Option String) (data : Val) : Except String Val :=
  match pyContains (vstr ("Error")) data with
  | .error e => .error e
  | .ok true => .ok data
  | .ok false =>
    match needle with
    | none => .ok data
    | some s =>
      if s = ("") then .ok data
      else
        match data with
        | vdict m =>
          match filterLoop field (lowerStr s) [] m with
          | .error e => .error e
          | .ok m' => .ok (vdict m')
        | _ => .error ("AttributeError: object has no attribute items")

/-- The `except` of the derived filters: `return {"Error": [str(e)]}`. -/
def catchFilter : Except String Val → Val
  | .ok v => v
  | .error e => vdict [(vstr ("Error"), vlist [vstr e])]

/-- zoho_crm.py lines 437-457: `get_deals_by_stage(stage=None)`. -/
def get_deals_by_stage (env : ApiEnv) (st : ApiState) (stage : Option String) :
    Val × ApiState :=
  let p := get_deals env st
  (catchFilter (byFieldCore ("Stage") stage p.1), p.2)

/-- zoho_crm.py lines 459-479: `get_tasks_by_status(status=None)`. -/
def get_tasks_by_status (env : ApiEnv) (st : ApiState) (status : Option String) :
    Val × ApiState :=
  let p := get_tasks env st
  (catchFilter (byFieldCore ("Status") status p.1), p.2)

/-- zoho_crm.py lines 481-501: `get_leads_by_status(status=None)`. -/
def get_leads_by_status (env : ApiEnv) (st : ApiState) (status : Option String) :
    Val × ApiState :=
  let p := get_leads env st
  (catchFilter (byFieldCore ("Lead Status") status p.1), p.2)

end ZohoCrm

namespace ZohoUtils

/-- zoho_utils.py lines 127-136: the improved `_extract_name`: dicts yield
their name (or full_name) attribute, strings pass through, None resolves to
the "Unassigned" sentinel, anything else is stringified. -/
def _extract_name : Val → Val
  | vdict kvs => lookupD kvs (vstr ("name")) (lookupD kvs (vstr ("full_name")) (vstr ("Unknown")))
  | vstr s => vstr s
  | vnull => vstr ("Unassigned")
  | v => vstr (pyStr v)

/-- zoho_utils.py lines 249-251 (also 306-308): reclassify a falsy or
blank owner as "Unassigned"; `owner.strip()` raises on a truthy non-string
owner. -/
def ownerOrUnassigned (owner : Val) : Except String Val :=
  if owner.truthy = false then .ok (vstr ("Unassigned"))
  else
    match owner with
    | vstr s => .ok (if stripStr s = ("") then vstr ("Unassigned") else vstr s)
    | _ => .error ("AttributeError: object has no attribute strip")

/-- zoho_utils.py lines 193 and 254 and 311:
`if not owner_filter or owner in owner_filter`. -/
def filterPass (ownerFilter : Option (List Val)) (owner : Val) : Bool :=
  match ownerFilter with
  | none => true
  | some [] => true
  | some l => l.any (fun x => decide (x = owner))

/-- zoho_utils.py lines 170-198 (loop body of `get_deals`). -/
def normDeal (deal : Val) : Except String (Val × Val) :=
  match deal with
  | vdict kvs =>
    let deal_data := vdict [
      (vstr ("Deal ID"), lookupD kvs (vstr ("id")) vnull),
      (vstr ("Deal Name"), lookupD kvs (vstr ("Deal_Name")) (vstr ("Unnamed Deal"))),
      (vstr ("Account Name"), _extract_name (lookupD kvs (vstr ("Account_Name")) vnull)),
      (vstr ("Deal Owner"), _extract_name (lookupD kvs (vstr ("Owner")) vnull)),
      (vstr ("Stage"), lookupD kvs (vstr ("Stage")) (vstr ("Unknown"))),
      (vstr ("Amount"), lookupD kvs (vstr ("Amount")) (vint 0)),
      (vstr ("Closing Date"), lookupD kvs (vstr ("Closing_Date")) (vstr ("Not Set"))),
      (vstr ("Service Line"), lookupD kvs (vstr ("Service_Line")) (vstr ("Not Specified"))),
      (vstr ("Accelerators/Personalized Service"),
        lookupD kvs (vstr ("Accelerators_or_Personalized_Service")) (vstr ("None"))),
      (vstr ("Tags"), lookupD kvs (vstr ("Tags")) (vlist [])),
      (vstr ("Notes"), vstr ("No notes available"))]
    let owner := _extract_name (lookupD kvs (vstr ("Owner")) vnull)
    let key := if owner.truthy then owner else vstr ("Unassigned")
    if hashableV key then .ok (key, deal_data)
    else .error ("TypeError: unhashable type")
  | _ => .error ("AttributeError: object has no attribute get")

/-- zoho_utils.py lines 225-259 (loop body of `get_leads`). -/
def normLead (lead : Val) : Except String (Val × Val) :=
  match lead with
  | vdict kvs =>
    let lead_data := vdict [
      (vstr ("Lead ID"), lookupD kvs (vstr ("id")) vnull),
      (vstr ("Lead Name"), lookupD kvs (vstr ("Full_Name"))
        (lookupD kvs (vstr ("Last_Name")) (vstr ("Unnamed Lead")))),
      (vstr ("First Name"), lookupD kvs (vstr ("First_Name")) (vstr (""))),
      (vstr ("Last Name"), lookupD kvs (vstr ("Last_Name")) (vstr (""))),
      (vstr ("Company"), lookupD kvs (vstr ("Company")) (vstr ("No Company"))),
      (vstr ("Lead Owner"), _extract_name (lookupD kvs (vstr ("Owner")) vnull)),
      (vstr ("Email"), lookupD kvs (vstr ("Email")) (vstr ("No Email"))),
      (vstr ("Phone"), lookupD kvs (vstr ("Phone")) (vstr ("No Phone"))),
      (vstr ("Mobile"), lookupD kvs (vstr ("Mobile")) (vstr ("No Mobile"))),
      (vstr ("Lead Status"), lookupD kvs (vstr ("Lead_Status")) (vstr ("Unknown"))),
      (vstr ("Lead Source"), lookupD kvs (vstr ("Lead_Source")) (vstr ("Unknown"))),
      (vstr ("Industry"), lookupD kvs (vstr ("Industry")) (vstr ("Not Specified"))),
      (vstr ("Tags"), lookupD kvs (vstr ("Tags")) (vlist [])),
      (vstr ("Created Time"), lookupD kvs (vstr ("Created_Time")) (vstr ("Unknown"))),
      (vstr ("Modified Time"), lookupD kvs (vstr ("Modified_Time")) (vstr ("Unknown")))]
    match ownerOrUnassigned (_extract_name (lookupD kvs (vstr ("Owner")) vnull)) with
    | .ok key => .ok (key, lead_data)
    | .error e => .error e
  | _ => .error ("AttributeError: object has no attribute get")

/-- zoho_utils.py lines 286-316 (loop body of `get_tasks`). -/
def normTask (task : Val) : Except String (Val × Val) :=
  match task with
  | vdict kvs =>
    let task_data := vdict [
      (vstr ("Task ID"), lookupD kvs (vstr ("id")) vnull),
      (vstr ("Task Subject"), lookupD kvs (vstr ("Subject")) (vstr ("Unnamed Task"))),
      (vstr ("Task Owner"), _extract_name (lookupD kvs (vstr ("Owner")) vnull)),
      (vstr ("Status"), lookupD kvs (vstr ("Status")) (vstr ("Not Started"))),
      (vstr ("Priority"), lookupD kvs (vstr ("Priority")) (vstr ("Normal"))),
      (vstr ("Due Date"), lookupD kvs (vstr ("Due_Date")) (vstr ("Not Set"))),
      (vstr ("Start Date"), lookupD kvs (vstr ("Start_Date")) (vstr ("Not Set"))),
      (vstr ("Related To"), _extract_name (lookupD kvs (vstr ("What_Id")) vnull)),
      (vstr ("Description"), lookupD kvs (vstr ("Description")) (vstr ("No Description"))),
      (vstr ("Created Time"), lookupD kvs (vstr ("Created_Time")) (vstr ("Unknown"))),
      (vstr ("Modified Time"), lookupD kvs (vstr ("Modified_Time")) (vstr ("Unknown")))]
    match ownerOrUnassigned (_extract_name (lookupD kvs (vstr ("Owner")) vnull)) with
    | .ok key => .ok (key, task_data)
    | .error e => .error e
  | _ => .error ("AttributeError: object has no attribute get")

/-- Per-record step with the optional owner filter of the zoho_utils
facades applied after normalization. -/
def stepFiltered (norm : Val → Except String (Val × Val))
    (ownerFilter : Option (List Val)) (acc : List (Val × Val)) (r : Val) :
    List (Val × Val) :=
  match norm r with
  | .ok (k, d) => if filterPass ownerFilter k then dictAppend acc k d else acc
  | .error _ => acc

/-- zoho_utils.py lines 153-206: `get_deals(owner_filter=None)`. -/
def get_deals (env : ApiEnv) (st : ApiState) (ownerFilter : Option (List Val)) :
    Val × ApiState :=
  runFacade env st ("No Deals") (stepFiltered normDeal ownerFilter)

/-- zoho_utils.py lines 208-267: `get_leads(owner_filter=None)`. -/
def get_leads (env : ApiEnv) (st : ApiState) (ownerFilter : Option (List Val)) :
    Val × ApiState :=
  runFacade env st ("No Leads") (stepFiltered normLead ownerFilter)

/-- zoho_utils.py lines 269-324: `get_tasks(owner_filter=None)`. -/
def get_tasks (env : ApiEnv) (st : ApiState) (ownerFilter : Option (List Val)) :
    Val × ApiState :=
  runFacade env st ("No Tasks") (stepFiltered normTask ownerFilter)

/-- zoho_utils.py lines 410-422: keys contributed by one fetched mapping:
only dicts without the "Error" marker contribute. -/
def collectKeys : Val → List Val
  | vdict kvs => if hasKeyB kvs (vstr ("Error")) then [] else kvs.map Prod.fst
  | _ => []

/-- Set-insertion used to embed `set.update`: keep the first occurrence of
each key. -/
def addUnique (acc : List Val) (x : Val) : List Val :=
  if acc.any (fun y => decide (y = x)) then acc else acc ++ [x]

/-- Insertion sort by the lexicographic code-point order, the semantics of
`sorted` on a collection of strings. -/
def sortStrings (l : List String) : List String :=
  List.insertionSort (fun a b => a ≤ b) l

/-- All-string detector for the collected keys: when it succeeds,
`sorted` compares the keys lexicographically as strings. -/
def allStrings : List Val → Option (List String)
  | [] => some []
  | vstr s :: rest => (allStrings rest).map (fun ns => s :: ns)
  | _ :: _ => none

/-- Numeric keys: Python ints and bools compare with each other. -/
def isNumV : Val → Bool
  | vint _ => true
  | vbool _ => true
  | _ => false

/-- The numeric value `sorted` compares (True == 1, False == 0). -/
def numVal : Val → Int
  | vint n => n
  | vbool b => if b then 1 else 0
  | _ => 0

def allNums (keys : List Val) : Bool := keys.all isNumV

/-- Stable insertion sort of numeric keys by value, the order `sorted`
uses on a homogeneous int/bool key set. -/
def sortNums (keys : List Val) : List Val :=
  List.insertionSort (fun a b => numVal a ≤ numVal b) keys

instance : IsTotal Val (fun a b => numVal a ≤ numVal b) :=
  ⟨fun a b => Int.le_total (numVal a) (numVal b)⟩

instance : IsTrans Val (fun a b => numVal a ≤ numVal b) :=
  ⟨fun _ _ _ h1 h2 => le_trans h1 h2⟩

/-- The comparison `sorted` can evaluate between two collected keys:
string against string lexicographically, number against number by
value. -/
def keyLeB : Val → Val → Bool
  | vstr s, vstr t => decide (s ≤ t)
  | a, b => isNumV a && isNumV b && decide (numVal a ≤ numVal b)

/-- Semantics of `sorted(list(all_owners))` on the collected keys: an
all-string set sorts lexicographically, an all-number (int/bool) set
sorts by value, a set of at most one element needs no comparison and is
returned as is, and any other mix makes a comparison raise TypeError
(none).  Keys are always hashable here — they were dict keys — so only
string/number mixes can actually reach the raising case. -/
def pySortedKeys (keys : List Val) : Option (List Val) :=
  match allStrings keys with
  | some ns => some ((sortStrings ns).map vstr)
  | none =>
    if allNums keys then some (sortNums keys)
    else if keys.length ≤ 1 then some keys
    else none

/-- zoho_utils.py lines 404-434: `get_all_owners`.  Collects the owner
keys of the deals, leads and tasks mappings, discards the reserved
sentinel entries, and returns them sorted; an exception (an incomparable
mixed-type key set under `sorted`) yields the empty list. -/
def get_all_owners (env : ApiEnv) (st : ApiState) : Val × ApiState :=
  let pd := get_deals env st none
  let pl := get_leads env pd.2 none
  let pt := get_tasks env pl.2 none
  let keys := (collectKeys pd.1 ++ collectKeys pl.1 ++ collectKeys pt.1).foldl addUnique []
  let kept := keys.filter (fun k =>
    decide (k ≠ vstr ("No Deals")) && decide (k ≠ vstr ("No Leads")) &&
    decide (k ≠ vstr ("No Tasks")) && decide (k ≠ vstr ("Error")))
  (match pySortedKeys kept with
   | some sortedKeys => vlist sortedKeys
   | none => vlist [], pt.2)

end ZohoUtils

/-! ## Fixtures and specification-side comparison definitions -/

/-- Upstream that 401s the first GET and 200s every later one. -/
def env401then200 (body : Val) (t1 t2 : String) : ApiEnv :=
  ⟨fun n => match n with
    | 0 => .resp 401 t1 (.error ("not json"))
    | _ + 1 => .resp 200 t2 (.ok body),
   fun _ => .success, true⟩

/-- Upstream that 401s every GET while refreshes always succeed. -/
def env401always (text : String) : ApiEnv :=
  ⟨fun _ => .resp 401 text (.error ("not json")), fun _ => .success, true⟩

/-- Upstream that 200s every GET with the same parsed body. -/
def env200always (body : Val) : ApiEnv :=
  ⟨fun _ => .resp 200 ("") (.ok body), fun _ => .success, true⟩

/-- Upstream that 200s the i-th GET with the i-th body of a schedule. -/
def seqEnv (bodies : List Val) : ApiEnv :=
  ⟨fun n => .resp 200 ("") (.ok (bodies.getD n (vdict []))), fun _ => .success, true⟩

/-- Upstream on which every GET raises a RequestException. -/
def netFailEnv (msg : String) : ApiEnv :=
  ⟨fun _ => .netExn msg, fun _ => .success, true⟩

/-- A one-record 200 page: `{"data": []}` under the page key. -/
def pageOf (records : List Val) : Val := vdict [(vstr ("data"), vlist records)]

def emptyPage : Val := pageOf []

/-- Raw leads of the owner-partition example: one owned by Raja, one with
a null Owner reference. -/
def rajaLeadRaw : Val :=
  vdict [(vstr ("id"), vint 1), (vstr ("Owner"), vdict [(vstr ("name"), vstr ("Raja"))])]

def noOwnerLeadRaw : Val := vdict [(vstr ("id"), vint 2), (vstr ("Owner"), vnull)]

def envLeadsC3 : ApiEnv := env200always (pageOf [rajaLeadRaw, noOwnerLeadRaw])

/-- Partition key produced by a per-record normalizer. -/
def ownerKeyOf : Except String (Val × Val) → Option Val
  | .ok (k, _) => some k
  | .error _ => none

/-- Owner field stored inside the normalized record. -/
def ownerFieldOf (field : String) : Except String (Val × Val) → Option Val
  | .ok (_, vdict dkvs) => lookupV dkvs (vstr field)
  | _ => none

/-- Whether a per-record normalization succeeds. -/
def exOk : Except String (Val × Val) → Bool
  | .ok _ => true
  | .error _ => false

/-- Upstream page for the stage-filter example: one deal owned by A in
stage Negotiation. -/
def envC5 : ApiEnv := env200always (pageOf [
  vdict [(vstr ("Owner"), vdict [(vstr ("name"), vstr ("A"))]),
    (vstr ("Stage"), vstr ("Negotiation"))]])

/-- Upstream page for the partial-failure example: two well-formed deals
around one malformed (non-dict) record. -/
def envC8 : ApiEnv := env200always (pageOf [rajaLeadRaw, vstr ("bad"), noOwnerLeadRaw])

/-- The three deals of the summary-math example. -/
def dealRowsC6 : List Val := [
  vdict [(vstr ("Amount"), vint 100), (vstr ("Stage"), vstr ("Closed Won"))],
  vdict [(vstr ("Amount"), vint 50), (vstr ("Stage"), vstr ("Negotiation"))],
  vdict [(vstr ("Amount"), vnull), (vstr ("Stage"), vstr ("Closed Won"))]]

/-- Upstream schedule for `get_crm_summary`: empty leads page, the three
example deals, empty tasks and notes pages. -/
def envC6 : ApiEnv := seqEnv [emptyPage, pageOf dealRowsC6, emptyPage, emptyPage]

/-- Upstream page whose single record carries the integer owner name 5:
`get_deals` keys it under the int 5 (its owner check is plain truthiness),
while `get_leads`/`get_tasks` skip the record (`strip()` raises on the
non-string owner). -/
def envC10int : ApiEnv :=
  env200always (pageOf [vdict [(vstr ("Owner"), vdict [(vstr ("name"), vint 5)])]])

/-- Upstream schedule mixing an integer deal-owner key with a string
lead-owner key, on which `sorted` raises a TypeError inside
`get_all_owners`. -/
def envC10mixed : ApiEnv :=
  seqEnv [pageOf [vdict [(vstr ("Owner"), vdict [(vstr ("name"), vint 5)])]],
    pageOf [rajaLeadRaw], emptyPage]

/-- Specification-side matcher for the derived stage/status filters: a
record matches when its field text (default "") lowercases to the
needle. -/
def matchB (field low : String) (d : Val) : Bool :=
  match d with
  | vdict dkvs =>
    match lookupD dkvs (vstr field) (vstr ("")) with
    | vstr s => decide (lowerStr s = low)
    | _ => false
  | _ => false

def valItems : Val → List Val
  | vlist xs => xs
  | _ => []

/-- Specification-side comparison mapping for the amended C5: keep each
owner's matching sub-list, dropping owners left with no matching
record. -/
def filteredPartitionSpec (field low : String) : List (Val × Val) → List (Val × Val)
  | [] => []
  | (k, v) :: rest =>
    let kept := (valItems v).filter (matchB field low)
    if kept.isEmpty then filteredPartitionSpec field low rest
    else (k, vlist kept) :: filteredPartitionSpec field low rest

/-- Well-formedness of a fetched partition for a derived filter: every
value is a list of dict records whose field (default "") is a string, so
no filter step raises. -/
def wfPartB (field : String) (m : List (Val × Val)) : Bool :=
  m.all (fun kv =>
    match kv.2 with
    | vlist ds => ds.all (fun d =>
        match d with
        | vdict dkvs =>
          match lookupD dkvs (vstr field) (vstr ("")) with
          | vstr _ => true
          | _ => false
        | _ => false)
    | _ => false)

/-- Pairwise distinctness of the keys of a fetched mapping (dict keys are
unique in Python). -/
def nodupKeysB : List (Val × Val) → Bool
  | [] => true
  | (k, _) :: rest => rest.all (fun kv => decide (kv.1 ≠ k)) && nodupKeysB rest

/-- Specification-side deal of the summary example: an optional Amount and
a Stage text. -/
def mkDeal : Option Int × String → Val
  | (some n, s) => vdict [(vstr ("Amount"), vint n), (vstr ("Stage"), vstr s)]
  | (none, s) => vdict [(vstr ("Amount"), vnull), (vstr ("Stage"), vstr s)]

/-- Amount is non-null and non-zero, the truthiness filter of the sums. -/
def amountTruthy : Option Int × String → Bool
  | (some n, _) => decide (n ≠ 0)
  | (none, _) => false

def amountOf : Option Int × String → Int
  | (some n, _) => n
  | (none, _) => 0

/-- Case-insensitive exact match of the stage text against "closed won". -/
def stageClosedB (p : Option Int × String) : Bool := decide (lowerStr p.2 = ("closed won"))

/-! ## Claims -/

/-- C1: against an upstream whose first GET answers 401 and whose retried
GET answers 200 with a JSON body, and whose token refresh succeeds,
`make_api_request` returns the second response's parsed JSON (after exactly
two GETs and one refresh), not an error mapping. -/
theorem claim_C1 (body : Val) (t1 t2 : String) :
    (make_api_request (env401then200 body t1 t2) tokenState0 2).1 = body ∧
    (make_api_request (env401then200 body t1 t2) tokenState0 2).2 = ⟨true, 2, 1⟩ :=
  ⟨rfl, rfl⟩

/-- Behaviour of the retry loop against an all-401 upstream with always
succeeding refreshes: every iteration burns one GET and one refresh until
the final attempt, whose 401 is returned as an API-request-failed error. -/
theorem apiLoop_always401 (text : String) (maxRetries : Nat) :
    ∀ f, f ≤ maxRetries → ∀ g r,
      apiLoop (env401always text) maxRetries (f + 1) ⟨true, g, r⟩ =
        (errDict (("API request failed: 401 - ") ++ text), ⟨true, g + f + 1, r + f⟩) := by
  have hout : ∀ n, (env401always text).getOutcome n = .resp 401 text (.error ("not json")) :=
    fun _ => rfl
  have href : ∀ s, refresh_access_token (env401always text) s = (true, ⟨true, s.gets, s.refreshes + 1⟩) :=
    fun _ => rfl
  intro f
  induction f using Nat.strong_induction_on with
  | _ f ih =>
    intro hf g r
    simp only [apiLoop, get_headers, hout, href]
    norm_num
    match f, hf with
    | 0, _ =>
      norm_num
      rfl
    | f' + 1, hf =>
      norm_num [show 0 < maxRetries by omega]
      refine (ih f' (by omega) (by omega) (g + 1) (r + 1)).trans ?_
      simp only [Prod.mk.injEq, ApiState.mk.injEq, true_and]
      omega

/-- C2: against an upstream answering every GET with 401 (refreshes always
succeeding), `make_api_request` with budget max_retries issues exactly
max_retries + 1 GET attempts and returns an ErrorResult — but that result
carries the final 401 failure message
"API request failed: 401 - <body>", not "max retries exceeded": every path
of the last loop iteration returns directly, so the trailing
"Max retries exceeded" return of zoho_crm.py line 124 is unreachable. -/
theorem claim_C2 (maxRetries : Nat) (text : String) :
    (make_api_request (env401always text) tokenState0 maxRetries).1 =
      errDict (("API request failed: 401 - ") ++ text) ∧
    (make_api_request (env401always text) tokenState0 maxRetries).2.gets = maxRetries + 1 ∧
    (make_api_request (env401always text) tokenState0 maxRetries).2.refreshes = maxRetries := by
  have h := apiLoop_always401 text maxRetries maxRetries (le_refl _) 0 0
  refine ⟨?_, ?_, ?_⟩ <;> simp [make_api_request, tokenState0, h]

/-- C2 fails as stated: with budget 2 the all-401 upstream does exhaust the
three attempts, but the returned error is the 401 API-request-failed
mapping, not the "max retries exceeded" error the claim names. -/
theorem claim_C2_counterexample :
    (make_api_request (env401always ("unauthorized")) tokenState0 2).2.gets = 2 + 1 ∧
    (make_api_request (env401always ("unauthorized")) tokenState0 2).1 =
      errDict ("API request failed: 401 - unauthorized") ∧
    (make_api_request (env401always ("unauthorized")) tokenState0 2).1 ≠
      errDict ("Max retries exceeded") ∧
    (make_api_request (env401always ("unauthorized")) tokenState0 2).1 ≠
      errDict ("max retries exceeded") := by
  refine ⟨rfl, rfl, ?_, ?_⟩ <;> decide

/-- C3 fails as stated for the zoho_crm.py variant: its `_extract_name`
maps an absent/None owner to None, so the normalized record's owner field
is None (not a sentinel string), and the partition key is "Unknown Owner",
so the leads of the claimed example partition under
`{"Raja": ..., "Unknown Owner": ...}` with no "Unassigned" key. -/
theorem claim_C3_counterexample :
    ZohoCrm._extract_name vnull = vnull ∧
    (ZohoCrm.get_leads envLeadsC3 tokenState0).1 = vdict [
      (vstr ("Raja"), vlist [vdict [
        (vstr ("Lead ID"), vint 1),
        (vstr ("Lead Name"), vstr ("Unnamed Lead")),
        (vstr ("Company"), vstr ("No Company")),
        (vstr ("Lead Owner"), vstr ("Raja")),
        (vstr ("Email"), vstr ("No Email")),
        (vstr ("Phone"), vstr ("No Phone")),
        (vstr ("Lead Status"), vstr ("Unknown")),
        (vstr ("Lead Source"), vstr ("Unknown")),
        (vstr ("Tags"), vlist []),
        (vstr ("Created Time"), vnull),
        (vstr ("Modified Time"), vnull)]]),
      (vstr ("Unknown Owner"), vlist [vdict [
        (vstr ("Lead ID"), vint 2),
        (vstr ("Lead Name"), vstr ("Unnamed Lead")),
        (vstr ("Company"), vstr ("No Company")),
        (vstr ("Lead Owner"), vnull),
        (vstr ("Email"), vstr ("No Email")),
        (vstr ("Phone"), vstr ("No Phone")),
        (vstr ("Lead Status"), vstr ("Unknown")),
        (vstr ("Lead Source"), vstr ("Unknown")),
        (vstr ("Tags"), vlist []),
        (vstr ("Created Time"), vnull),
        (vstr ("Modified Time"), vnull)]])] ∧
    pyContains (vstr ("Unassigned")) (ZohoCrm.get_leads envLeadsC3 tokenState0).1 = .ok false :=
  ⟨rfl, rfl, rfl⟩

/-- C3 amended: for every raw record whose Owner reference is absent or
None, the partition key is always the sentinel — "Unassigned" in
zoho_utils.py, "Unknown Owner" in zoho_crm.py (never None, never "") — and
the zoho_utils record's stored owner field is "Unassigned"; but in
zoho_crm.py the stored owner field is None (the key alone carries the
sentinel).  The example partition `{"Raja": [lead1], "Unassigned":
[lead2]}` holds for zoho_utils.get_leads. -/
theorem claim_C3 (kvs : List (Val × Val))
    (h : lookupD kvs (vstr ("Owner")) vnull = vnull) :
    ZohoUtils._extract_name vnull = vstr ("Unassigned") ∧
    ZohoCrm._extract_name vnull = vnull ∧
    ownerKeyOf (ZohoCrm.normDeal (vdict kvs)) = some (vstr ("Unknown Owner")) ∧
    ownerFieldOf ("Deal Owner") (ZohoCrm.normDeal (vdict kvs)) = some vnull ∧
    ownerKeyOf (ZohoCrm.normLead (vdict kvs)) = some (vstr ("Unknown Owner")) ∧
    ownerFieldOf ("Lead Owner") (ZohoCrm.normLead (vdict kvs)) = some vnull ∧
    ownerKeyOf (ZohoCrm.normTask (vdict kvs)) = some (vstr ("Unknown Owner")) ∧
    ownerFieldOf ("Task Owner") (ZohoCrm.normTask (vdict kvs)) = some vnull ∧
    (lookupV kvs (vstr ("Parent_Id")) = none →
      ownerKeyOf (ZohoCrm.normNote (vdict kvs)) = some (vstr ("Unknown Owner")) ∧
      ownerFieldOf ("Note Owner") (ZohoCrm.normNote (vdict kvs)) = some vnull) ∧
    ownerKeyOf (ZohoUtils.normDeal (vdict kvs)) = some (vstr ("Unassigned")) ∧
    ownerFieldOf ("Deal Owner") (ZohoUtils.normDeal (vdict kvs)) = some (vstr ("Unassigned")) ∧
    ownerKeyOf (ZohoUtils.normLead (vdict kvs)) = some (vstr ("Unassigned")) ∧
    ownerFieldOf ("Lead Owner") (ZohoUtils.normLead (vdict kvs)) = some (vstr ("Unassigned")) ∧
    ownerKeyOf (ZohoUtils.normTask (vdict kvs)) = some (vstr ("Unassigned")) ∧
    ownerFieldOf ("Task Owner") (ZohoUtils.normTask (vdict kvs)) = some (vstr ("Unassigned")) ∧
    (ZohoUtils.get_leads envLeadsC3 tokenState0 none).1 = vdict [
      (vstr ("Raja"), vlist [vdict [
        (vstr ("Lead ID"), vint 1),
        (vstr ("Lead Name"), vstr ("Unnamed Lead")),
        (vstr ("First Name"), vstr ("")),
        (vstr ("Last Name"), vstr ("")),
        (vstr ("Company"), vstr ("No Company")),
        (vstr ("Lead Owner"), vstr ("Raja")),
        (vstr ("Email"), vstr ("No Email")),
        (vstr ("Phone"), vstr ("No Phone")),
        (vstr ("Mobile"), vstr ("No Mobile")),
        (vstr ("Lead Status"), vstr ("Unknown")),
        (vstr ("Lead Source"), vstr ("Unknown")),
        (vstr ("Industry"), vstr ("Not Specified")),
        (vstr ("Tags"), vlist []),
        (vstr ("Created Time"), vstr ("Unknown")),
        (vstr ("Modified Time"), vstr ("Unknown"))]]),
      (vstr ("Unassigned"), vlist [vdict [
        (vstr ("Lead ID"), vint 2),
        (vstr ("Lead Name"), vstr ("Unnamed Lead")),
        (vstr ("First Name"), vstr ("")),
        (vstr ("Last Name"), vstr ("")),
        (vstr ("Company"), vstr ("No Company")),
        (vstr ("Lead Owner"), vstr ("Unassigned")),
        (vstr ("Email"), vstr ("No Email")),
        (vstr ("Phone"), vstr ("No Phone")),
        (vstr ("Mobile"), vstr ("No Mobile")),
        (vstr ("Lead Status"), vstr ("Unknown")),
        (vstr ("Lead Source"), vstr ("Unknown")),
        (vstr ("Industry"), vstr ("Not Specified")),
        (vstr ("Tags"), vlist []),
        (vstr ("Created Time"), vstr ("Unknown")),
        (vstr ("Modified Time"), vstr ("Unknown"))]])] := by
  have h' : (lookupV kvs (vstr ("Owner"))).getD vnull = vnull := h
  refine ⟨rfl, rfl, ?_, ?_, ?_, ?_, ?_, ?_, ?_, ?_, ?_, ?_, ?_, ?_, ?_, rfl⟩
  all_goals
    simp [ZohoCrm.normDeal, ZohoCrm.normLead, ZohoCrm.normTask, ZohoCrm.normNote,
      ZohoUtils.normDeal, ZohoUtils.normLead, ZohoUtils.normTask,
      ZohoUtils.ownerOrUnassigned, ZohoUtils._extract_name, ZohoCrm._extract_name,
      ownerKeyOf, ownerFieldOf, lookupV, lookupD, h, h', hashableV, Val.truthy, pyGetD,
      show stripStr ("Unassigned") ≠ ("") from (by decide)]
  intro hp
  simp [hp, lookupV, lookupD, hashableV]

/-- Witness instantiating the amended C3 at the concrete ownerless record
`{}`. -/
theorem claim_C3_witness :
    lookupD [] (vstr ("Owner")) vnull = vnull ∧
    ownerKeyOf (ZohoCrm.normDeal (vdict [])) = some (vstr ("Unknown Owner")) :=
  ⟨rfl, (claim_C3 [] rfl).2.2.1⟩

/-- C4: whenever the upstream fetch parses to a dict without the "Error"
marker whose data array is empty (or absent), every entity facade returns
its fixed single-key sentinel mapping — `{"No Deals": []}`,
`{"No Leads": []}`, `{"No Tasks": []}`, `{"No Notes": []}` — which is
neither the empty mapping nor an Error mapping. -/
theorem claim_C4 (env : ApiEnv) (st : ApiState) (kvs : List (Val × Val))
    (hresp : (make_api_request env st 2).1 = vdict kvs)
    (hnoerr : hasKeyB kvs (vstr ("Error")) = false)
    (hdata : lookupD kvs (vstr ("data")) (vlist []) = vlist []) :
    (ZohoCrm.get_deals env st).1 = vdict [(vstr ("No Deals"), vlist [])] ∧
    (ZohoCrm.get_leads env st).1 = vdict [(vstr ("No Leads"), vlist [])] ∧
    (ZohoCrm.get_tasks env st).1 = vdict [(vstr ("No Tasks"), vlist [])] ∧
    (ZohoCrm.get_notes env st).1 = vdict [(vstr ("No Notes"), vlist [])] ∧
    (ZohoUtils.get_leads env st none).1 = vdict [(vstr ("No Leads"), vlist [])] ∧
    (ZohoCrm.get_deals env st).1 ≠ vdict [] ∧
    pyContains (vstr ("Error")) (ZohoCrm.get_deals env st).1 = .ok false := by
  have core : ∀ sentinel step,
      facadeCore sentinel step (make_api_request env st 2).1 =
        .ok (vdict [(vstr sentinel, vlist [])]) := by
    intro sentinel step
    rw [hresp]
    simp [facadeCore, pyContains, hnoerr, pyGetD, hashableV, hdata, Val.truthy]
  refine ⟨?_, ?_, ?_, ?_, ?_, ?_, ?_⟩ <;>
    simp [ZohoCrm.get_deals, ZohoCrm.get_leads, ZohoCrm.get_tasks, ZohoCrm.get_notes,
      ZohoUtils.get_leads, runFacade, core, catchAll, pyContains, hasKeyB]

/-- Witness instantiating C4 against a concrete empty-page upstream. -/
theorem claim_C4_witness :
    (make_api_request (env200always emptyPage) tokenState0 2).1 =
      vdict [(vstr ("data"), vlist [])] ∧
    (ZohoCrm.get_deals (env200always emptyPage) tokenState0).1 =
      vdict [(vstr ("No Deals"), vlist [])] :=
  ⟨rfl, (claim_C4 (env200always emptyPage) tokenState0
    [(vstr ("data"), vlist [])] rfl rfl rfl).1⟩

/-- C8: the normalization loop skips exactly the records whose per-record
normalization raises — folding the batch equals folding only its
well-formed records — and for a page of 3 raw deals whose second is
malformed, `get_deals` returns exactly the 2 normalized records of the
first and third without aborting the batch. -/
theorem claim_C8 :
    (∀ (acc : List (Val × Val)) (rs : List Val),
      rs.foldl (stepOf ZohoCrm.normDeal) acc =
        (rs.filter (fun r => exOk (ZohoCrm.normDeal r))).foldl (stepOf ZohoCrm.normDeal) acc) ∧
    (ZohoCrm.get_deals envC8 tokenState0).1 = vdict [
      (vstr ("Raja"), vlist [vdict [
        (vstr ("Deal ID"), vint 1),
        (vstr ("Deal Name"), vstr ("Unnamed Deal")),
        (vstr ("Account Name"), vnull),
        (vstr ("Deal Owner"), vstr ("Raja")),
        (vstr ("Stage"), vstr ("Unknown")),
        (vstr ("Amount"), vnull),
        (vstr ("Closing Date"), vnull),
        (vstr ("Service Line"), vnull),
        (vstr ("Accelerators/Personalized Service"), vnull),
        (vstr ("Tags"), vnull),
        (vstr ("Created Time"), vnull),
        (vstr ("Modified Time"), vnull)]]),
      (vstr ("Unknown Owner"), vlist [vdict [
        (vstr ("Deal ID"), vint 2),
        (vstr ("Deal Name"), vstr ("Unnamed Deal")),
        (vstr ("Account Name"), vnull),
        (vstr ("Deal Owner"), vnull),
        (vstr ("Stage"), vstr ("Unknown")),
        (vstr ("Amount"), vnull),
        (vstr ("Closing Date"), vnull),
        (vstr ("Service Line"), vnull),
        (vstr ("Accelerators/Personalized Service"), vnull),
        (vstr ("Tags"), vnull),
        (vstr ("Created Time"), vnull),
        (vstr ("Modified Time"), vnull)]])] := by
  refine ⟨?_, by rfl⟩
  intro acc rs
  induction rs generalizing acc with
  | nil => rfl
  | cons r rs ih =>
    rcases hok : ZohoCrm.normDeal r with e | v
    · have hstep : stepOf ZohoCrm.normDeal acc r = acc := by
        simp only [stepOf, hok]
      simp [List.filter_cons, hok, exOk, List.foldl_cons, hstep, ih]
    · simp [List.filter_cons, hok, exOk, List.foldl_cons, ih]

/-- C9: `filter_data_by_owner` in zoho_crm.py is the identity when the
owner is "All" or falsy, and otherwise switches shape to a list: the list
stored under the owner, or `[]` when the owner is absent or the data is
not a mapping. -/
theorem claim_C9 (data owner : Val) (kvs : List (Val × Val)) :
    (ZohoCrm.filter_data_by_owner data (vstr ("All")) = .ok data) ∧
    (owner.truthy = false → ZohoCrm.filter_data_by_owner data owner = .ok data) ∧
    (owner.truthy = true → owner ≠ vstr ("All") → hashableV owner = true →
      ZohoCrm.filter_data_by_owner (vdict kvs) owner =
        .ok ((lookupV kvs owner).getD (vlist []))) ∧
    (owner.truthy = true → owner ≠ vstr ("All") → (∀ l, data ≠ vdict l) →
      ZohoCrm.filter_data_by_owner data owner = .ok (vlist [])) := by
  refine ⟨?_, ?_, ?_, ?_⟩
  · simp [ZohoCrm.filter_data_by_owner]
  · intro ht
    simp [ZohoCrm.filter_data_by_owner, ht]
  · intro ht hall hh
    simp [ZohoCrm.filter_data_by_owner, ht, hall, hh, lookupD]
  · intro ht hall hnd
    rcases data with _ | b | n | s | xs | l
    · simp [ZohoCrm.filter_data_by_owner, ht, hall]
    · simp [ZohoCrm.filter_data_by_owner, ht, hall]
    · simp [ZohoCrm.filter_data_by_owner, ht, hall]
    · simp [ZohoCrm.filter_data_by_owner, ht, hall]
    · simp [ZohoCrm.filter_data_by_owner, ht, hall]
    · exact absurd rfl (hnd l)

/-- Witness instantiating C9 at a one-owner mapping and the owner "Raja". -/
theorem claim_C9_witness :
    (vstr ("Raja")).truthy = true ∧
    ZohoCrm.filter_data_by_owner (vdict [(vstr ("Raja"), vlist [vint 1])]) (vstr ("Raja")) =
      .ok (vlist [vint 1]) := by
  refine ⟨by decide, ?_⟩
  have h := (claim_C9 (vdict [(vstr ("Raja"), vlist [vint 1])]) (vstr ("Raja"))
    [(vstr ("Raja"), vlist [vint 1])]).2.2.1 (by decide) (by decide) (by decide)
  simpa using h

/-- The Amount sum of zoho_crm.py line 381 on specification-side deals:
only truthy (non-null, non-zero) Amounts are summed. -/
theorem sumTruthyAmounts_mk : ∀ ds : List (Option Int × String),
    ZohoCrm.sumTruthyAmounts (ds.map mkDeal) =
      .ok (((ds.filter amountTruthy).map amountOf).sum) := by
  intro ds
  induction ds with
  | nil => rfl
  | cons p ds ih =>
    rcases p with ⟨a, s⟩
    rcases a with _ | n
    · simpa [mkDeal, ZohoCrm.sumTruthyAmounts, pyGetD, lookupD, lookupV, hashableV,
        Val.truthy, amountTruthy, List.filter_cons] using ih
    · by_cases hn : n = 0
      · subst hn
        simpa [mkDeal, ZohoCrm.sumTruthyAmounts, pyGetD, lookupD, lookupV, hashableV,
          Val.truthy, amountTruthy, List.filter_cons] using ih
      · simp [mkDeal, ZohoCrm.sumTruthyAmounts, pyGetD, lookupD, lookupV, hashableV,
          Val.truthy, amountTruthy, List.filter_cons, hn, ZohoCrm.toNum, ih, amountOf]

/-- The closed-deal comprehension of zoho_crm.py line 382 on
specification-side deals: a case-insensitive exact match of the stage
text against "closed won". -/
theorem filterClosed_mk : ∀ ds : List (Option Int × String),
    ZohoCrm.filterClosed (ds.map mkDeal) = .ok ((ds.filter stageClosedB).map mkDeal) := by
  intro ds
  induction ds with
  | nil => rfl
  | cons p ds ih =>
    rcases p with ⟨a, s⟩
    by_cases hs : lowerStr s = ("closed won")
    · rcases a with _ | n <;>
        simp [mkDeal, ZohoCrm.filterClosed, pyGetD, lookupD, lookupV, hashableV,
          pyLower, List.filter_cons, stageClosedB, hs, ih]
    · rcases a with _ | n <;>
        simp [mkDeal, ZohoCrm.filterClosed, pyGetD, lookupD, lookupV, hashableV,
          pyLower, List.filter_cons, stageClosedB, hs, ih]

/-- C6: `get_crm_summary` sums Amount over exactly the deals whose Amount
is truthy (non-null, non-zero) and classifies a deal as closed exactly when
its stage text lowercases to "closed won"; on the example deals
[(100, Closed Won), (50, Negotiation), (None, Closed Won)] the summary is
total_deal_value 150, closed_deals 2, closed_deal_value 100. -/
theorem claim_C6 :
    (∀ ds : List (Option Int × String),
      ZohoCrm.dealMetrics (vlist (ds.map mkDeal)) =
        .ok (((ds.filter amountTruthy).map amountOf).sum,
             (ds.filter stageClosedB).map mkDeal,
             ((((ds.filter stageClosedB).filter amountTruthy)).map amountOf).sum)) ∧
    pyIndex (ZohoCrm.get_crm_summary envC6 tokenState0 (vstr ("All"))).1 (vstr ("summary")) =
      .ok (vdict [
        (vstr ("total_leads"), vint 0),
        (vstr ("total_deals"), vint 3),
        (vstr ("total_tasks"), vint 0),
        (vstr ("total_notes"), vint 0),
        (vstr ("total_deal_value"), vint 150),
        (vstr ("closed_deals"), vint 2),
        (vstr ("closed_deal_value"), vint 100)]) := by
  constructor
  · intro ds
    simp [ZohoCrm.dealMetrics, pyIter, sumTruthyAmounts_mk ds,
      filterClosed_mk ds, sumTruthyAmounts_mk (ds.filter stageClosedB)]
  · rfl

/-- Every value the retry loop returns is either an Error-keyed mapping or
the parsed JSON body of some 200 response of the environment: no failure
path escapes the tagged-error channel. -/
theorem apiLoop_shape (env : ApiEnv) (maxRetries : Nat) :
    ∀ fuel st, (∃ msg, (apiLoop env maxRetries fuel st).1 = errDict msg) ∨
      (∃ n t v, env.getOutcome n = .resp 200 t (.ok v) ∧
        (apiLoop env maxRetries fuel st).1 = v) := by
  intro fuel
  induction fuel with
  | zero => intro st; exact .inl ⟨("Max retries exceeded"), rfl⟩
  | succ fuel ih =>
    intro st
    simp only [apiLoop]
    rcases hg : get_headers env st with ⟨ok, st1⟩
    rcases ok
    · exact .inl ⟨("Unable to get valid headers for API request"), rfl⟩
    · dsimp only
      rcases ho : env.getOutcome st1.gets with ⟨status, text, body⟩ | msg | msg
      · dsimp only
        by_cases h200 : status = 200
        · subst h200
          rw [if_pos (Eq.refl (200 : Nat))]
          rcases body with e | v
          · exact .inl ⟨(("Unexpected error during API request: ") ++ e), rfl⟩
          · exact .inr ⟨st1.gets, text, v, ho, rfl⟩
        · rw [if_neg h200]
          by_cases h401 : status = 401 ∧ maxRetries - fuel < maxRetries
          · rw [if_pos h401]
            rcases href : refresh_access_token env ⟨st1.hasToken, st1.gets + 1, st1.refreshes⟩
              with ⟨rok, st3⟩
            rcases rok
            · exact .inl ⟨("Unable to refresh access token"), rfl⟩
            · exact ih st3
          · rw [if_neg h401]
            exact .inl ⟨(("API request failed: ") ++ toString status ++ (" - ") ++ text), rfl⟩
      · dsimp only
        by_cases hlast : maxRetries - fuel = maxRetries
        · rw [if_pos hlast]
          exact .inl ⟨(("Network error during API request: ") ++ msg), rfl⟩
        · rw [if_neg hlast]
          exact ih _
      · exact .inl ⟨(("Unexpected error during API request: ") ++ msg), rfl⟩

/-- C7: the executor never escapes its tagged-error channel — every
`make_api_request` result is either the parsed body of a 200 response or
an `{"Error": msg}` mapping — and each facade converts an executor failure
into the mapping `{"Error": [msg]}` whose value is the singleton list of
the message string (`test_connection` reports it as a False flag with an
"API connection failed" message). -/
theorem claim_C7 :
    (∀ (env : ApiEnv) (maxRetries : Nat) (st : ApiState),
      (∃ msg, (make_api_request env st maxRetries).1 = errDict msg) ∨
      (∃ n t v, env.getOutcome n = .resp 200 t (.ok v) ∧
        (make_api_request env st maxRetries).1 = v)) ∧
    (∀ (env : ApiEnv) (st : ApiState) (msg : String),
      (make_api_request env st 2).1 = errDict msg →
      (ZohoCrm.get_deals env st).1 = vdict [(vstr ("Error"), vlist [vstr msg])] ∧
      (ZohoCrm.get_leads env st).1 = vdict [(vstr ("Error"), vlist [vstr msg])] ∧
      (ZohoCrm.get_tasks env st).1 = vdict [(vstr ("Error"), vlist [vstr msg])] ∧
      (ZohoCrm.get_notes env st).1 = vdict [(vstr ("Error"), vlist [vstr msg])] ∧
      (ZohoUtils.get_deals env st none).1 = vdict [(vstr ("Error"), vlist [vstr msg])] ∧
      (ZohoUtils.get_leads env st none).1 = vdict [(vstr ("Error"), vlist [vstr msg])] ∧
      (ZohoUtils.get_tasks env st none).1 = vdict [(vstr ("Error"), vlist [vstr msg])] ∧
      (env.configOk = true →
        (ZohoCrm.test_connection env st).1 =
          (false, ("API connection failed: ") ++ msg))) := by
  constructor
  · intro env maxRetries st
    exact apiLoop_shape env maxRetries (maxRetries + 1) st
  · intro env st msg h
    have core : ∀ sentinel step,
        catchAll (facadeCore sentinel step (make_api_request env st 2).1) =
          vdict [(vstr ("Error"), vlist [vstr msg])] := by
      intro sentinel step
      rw [h]
      simp [facadeCore, errDict, pyContains, hasKeyB, pyIndex, lookupV, hashableV, catchAll]
    refine ⟨?_, ?_, ?_, ?_, ?_, ?_, ?_, ?_⟩
    · exact core _ _
    · exact core _ _
    · exact core _ _
    · exact core _ _
    · exact core _ _
    · exact core _ _
    · exact core _ _
    · intro hc
      simp [ZohoCrm.test_connection, hc, h, errDict, pyContains, hasKeyB, pyIndex,
        lookupV, hashableV, pyStr]

/-- Witness instantiating C7's conversion against a concrete upstream
whose every GET raises a network error. -/
theorem claim_C7_witness :
    (make_api_request (netFailEnv ("boom")) tokenState0 2).1 =
      errDict ("Network error during API request: boom") ∧
    (ZohoCrm.get_deals (netFailEnv ("boom")) tokenState0).1 =
      vdict [(vstr ("Error"), vlist [vstr ("Network error during API request: boom")])] :=
  ⟨rfl, (claim_C7.2 (netFailEnv ("boom")) tokenState0
    ("Network error during API request: boom") rfl).1⟩

/-- C5 fails as stated: filtering one owner's single Negotiation deal by
stage "closed won" returns the empty mapping — the owner key "A" of the
unfiltered partition is dropped instead of being kept with an empty
list. -/
theorem claim_C5_counterexample :
    (ZohoCrm.get_deals_by_stage envC5 tokenState0 (some ("closed won"))).1 = vdict [] ∧
    pyContains (vstr ("A")) (ZohoCrm.get_deals envC5 tokenState0).1 = .ok true ∧
    pyContains (vstr ("A"))
      (ZohoCrm.get_deals_by_stage envC5 tokenState0 (some ("closed won"))).1 = .ok false :=
  ⟨rfl, rfl, rfl⟩

/-- Appending under a key absent from the mapping adds the key at the
end. -/
theorem dictAppend_fresh (k x : Val) :
    ∀ l : List (Val × Val), l.all (fun kv => decide (kv.1 ≠ k)) = true →
      dictAppend l k x = l ++ [(k, vlist [x])] := by
  intro l
  induction l with
  | nil => intro _; rfl
  | cons kv rest ih =>
    intro h
    rcases kv with ⟨k', v'⟩
    simp only [List.all_cons, Bool.and_eq_true, decide_eq_true_eq] at h
    simp [dictAppend, h.1, ih h.2]

/-- Appending under the trailing key extends its list in place. -/
theorem dictAppend_last (k x : Val) (xs : List Val) :
    ∀ l : List (Val × Val), l.all (fun kv => decide (kv.1 ≠ k)) = true →
      dictAppend (l ++ [(k, vlist xs)]) k x = l ++ [(k, vlist (xs ++ [x]))] := by
  intro l
  induction l with
  | nil => intro _; simp [dictAppend, pushList]
  | cons kv rest ih =>
    intro h
    rcases kv with ⟨k', v'⟩
    simp only [List.all_cons, Bool.and_eq_true, decide_eq_true_eq] at h
    simp [dictAppend, h.1, ih h.2]

/-- Folding one owner's records onto a mapping that ends with that owner's
entry extends the entry with exactly the matching records. -/
theorem foldStep_last (field low : String) (k : Val) :
    ∀ (ds : List Val) (l : List (Val × Val)) (xs : List Val),
      l.all (fun kv => decide (kv.1 ≠ k)) = true →
      ds.foldl (fun a d => if matchB field low d then dictAppend a k d else a)
          (l ++ [(k, vlist xs)]) =
        l ++ [(k, vlist (xs ++ ds.filter (matchB field low)))] := by
  intro ds
  induction ds with
  | nil => intro l xs _; simp
  | cons d ds ih =>
    intro l xs h
    by_cases hm : matchB field low d = true
    · rw [List.foldl_cons, if_pos hm, dictAppend_last k d xs l h, ih l (xs ++ [d]) h]
      simp [List.filter_cons, hm]
    · rw [List.foldl_cons, if_neg (by simp [hm]), ih l xs h]
      simp [List.filter_cons, hm]

/-- Folding one owner's records under a fresh key appends a single entry
carrying the matching records, or leaves the mapping unchanged when none
match. -/
theorem foldStep_group (field low : String) (k : Val) :
    ∀ (ds : List Val) (acc : List (Val × Val)),
      acc.all (fun kv => decide (kv.1 ≠ k)) = true →
      ds.foldl (fun a d => if matchB field low d then dictAppend a k d else a) acc =
        (if (ds.filter (matchB field low)).isEmpty then acc
         else acc ++ [(k, vlist (ds.filter (matchB field low)))]) := by
  intro ds
  induction ds with
  | nil => intro acc _; simp
  | cons d ds ih =>
    intro acc h
    by_cases hm : matchB field low d = true
    · rw [List.foldl_cons, if_pos hm, dictAppend_fresh k d acc h,
        foldStep_last field low k ds acc [d] h]
      simp [List.filter_cons, hm]
    · rw [List.foldl_cons, if_neg (by simp [hm]), ih acc h]
      simp [List.filter_cons, hm]

/-- On well-formed records the per-owner filter loop of the derived
filters never raises and computes the pure fold. -/
theorem filterRecords_wf (field low : String) (k : Val) :
    ∀ (ds : List Val) (acc : List (Val × Val)),
      ds.all (fun d => match d with
        | vdict dkvs =>
          match lookupD dkvs (vstr field) (vstr ("")) with
          | vstr _ => true
          | _ => false
        | _ => false) = true →
      ZohoCrm.filterRecords field low k acc ds =
        .ok (ds.foldl (fun a d => if matchB field low d then dictAppend a k d else a) acc) := by
  intro ds
  induction ds with
  | nil => intro acc _; rfl
  | cons d ds ih =>
    intro acc h
    simp only [List.all_cons, Bool.and_eq_true] at h
    rcases d with _ | b | n | s | xs | dkvs
    · exact absurd h.1 Bool.false_ne_true
    · exact absurd h.1 Bool.false_ne_true
    · exact absurd h.1 Bool.false_ne_true
    · exact absurd h.1 Bool.false_ne_true
    · exact absurd h.1 Bool.false_ne_true
    · have h1 : (match lookupD dkvs (vstr field) (vstr ("")) with
        | vstr _ => true
        | _ => false) = true := h.1
      rcases hl : lookupD dkvs (vstr field) (vstr ("")) with _ | b' | n' | s' | xs' | kvs'
      · rw [hl] at h1; exact absurd h1 Bool.false_ne_true
      · rw [hl] at h1; exact absurd h1 Bool.false_ne_true
      · rw [hl] at h1; exact absurd h1 Bool.false_ne_true
      · have hget : pyGetD (vdict dkvs) (vstr field) (vstr ("")) = .ok (vstr s') := by
          simp [pyGetD, hashableV, hl]
        simp only [ZohoCrm.filterRecords, hget, pyLower]
        rw [ih _ h.2]
        simp [List.foldl_cons, matchB, hl]
      · rw [hl] at h1; exact absurd h1 Bool.false_ne_true
      · rw [hl] at h1; exact absurd h1 Bool.false_ne_true

/-- On a well-formed, duplicate-free partition the outer loop of the
derived filters computes exactly the specification mapping appended to the
accumulator. -/
theorem filterLoop_wf (field low : String) :
    ∀ (m acc : List (Val × Val)),
      wfPartB field m = true →
      nodupKeysB m = true →
      m.all (fun kv => acc.all (fun kv' => decide (kv'.1 ≠ kv.1))) = true →
      ZohoCrm.filterLoop field low acc m = .ok (acc ++ filteredPartitionSpec field low m) := by
  intro m
  induction m with
  | nil => intro acc _ _ _; simp [ZohoCrm.filterLoop, filteredPartitionSpec]
  | cons kv rest ih =>
    intro acc hwf hnd hfresh
    rcases kv with ⟨k, v⟩
    simp only [wfPartB, List.all_cons, Bool.and_eq_true] at hwf
    simp only [nodupKeysB, Bool.and_eq_true] at hnd
    simp only [List.all_cons, Bool.and_eq_true] at hfresh
    rcases v with _ | b | n | s | xs | kvs
    · exact absurd hwf.1 Bool.false_ne_true
    · exact absurd hwf.1 Bool.false_ne_true
    · exact absurd hwf.1 Bool.false_ne_true
    · exact absurd hwf.1 Bool.false_ne_true
    · simp only [ZohoCrm.filterLoop, pyIter]
      rw [filterRecords_wf field low k xs acc hwf.1,
        foldStep_group field low k xs acc hfresh.1]
      by_cases hk : (xs.filter (matchB field low)).isEmpty = true
      · rw [if_pos hk]
        dsimp only
        rw [ih acc (by simpa [wfPartB] using hwf.2) hnd.2 hfresh.2]
        simp [filteredPartitionSpec, valItems, hk]
      · rw [if_neg hk]
        have hfresh' : rest.all (fun kv =>
            (acc ++ [(k, vlist (xs.filter (matchB field low)))]).all
              (fun kv' => decide (kv'.1 ≠ kv.1))) = true := by
          have hfr := hfresh.2
          have hn1 := hnd.1
          simp only [List.all_eq_true, decide_eq_true_eq] at hfr hn1 ⊢
          intro kv hkv kv' hkv'
          rcases List.mem_append.mp hkv' with hmem | hmem
          · exact hfr kv hkv kv' hmem
          · simp only [List.mem_singleton] at hmem
            subst hmem
            exact fun hEq => (hn1 kv hkv) hEq.symm
        dsimp only
        rw [ih (acc ++ [(k, vlist (xs.filter (matchB field low)))])
          (by simpa [wfPartB] using hwf.2) hnd.2 hfresh']
        simp [filteredPartitionSpec, valItems, hk]
    · exact absurd hwf.1 Bool.false_ne_true

/-- Every entry of the specification mapping is keyed by an owner of the
original partition and carries a non-empty list. -/
theorem filteredPartitionSpec_shape (field low : String) :
    ∀ m : List (Val × Val), ∀ kv ∈ filteredPartitionSpec field low m,
      kv.1 ∈ m.map Prod.fst ∧ kv.2 ≠ vlist [] := by
  intro m
  induction m with
  | nil => intro kv hkv; simp [filteredPartitionSpec] at hkv
  | cons p rest ih =>
    intro kv hkv
    rcases p with ⟨k, v⟩
    simp only [filteredPartitionSpec] at hkv
    by_cases hk : ((valItems v).filter (matchB field low)).isEmpty = true
    · rw [if_pos hk] at hkv
      rcases ih kv hkv with ⟨h1, h2⟩
      exact ⟨by simp [List.mem_cons]; right; simpa using h1, h2⟩
    · rw [if_neg hk] at hkv
      rcases List.mem_cons.mp hkv with h | h
      · subst h
        refine ⟨by simp, ?_⟩
        intro hv
        apply hk
        have : (valItems v).filter (matchB field low) = [] := by
          exact Val.vlist.inj hv
        simp [this]
      · rcases ih kv h with ⟨h1, h2⟩
        exact ⟨by simp [List.mem_cons]; right; simpa using h1, h2⟩

/-- C5 amended: on a fetched partition with duplicate-free keys, no owner
named "Error", and well-formed records (the filtered field holding string
text), the derived filters rebuild the partition from exactly the
case-insensitively matching records, but drop every owner whose matching
list would be empty — surviving owners are a subset of the original keys
and each keeps its non-empty matching sub-list. -/
theorem claim_C5 (env : ApiEnv) (st : ApiState) (stage : String) (m : List (Val × Val))
    (hs : stage ≠ ("")) (hnd : nodupKeysB m = true)
    (hne : hasKeyB m (vstr ("Error")) = false) :
    ((ZohoCrm.get_deals env st).1 = vdict m → wfPartB ("Stage") m = true →
      (ZohoCrm.get_deals_by_stage env st (some stage)).1 =
        vdict (filteredPartitionSpec ("Stage") (lowerStr stage) m)) ∧
    ((ZohoCrm.get_tasks env st).1 = vdict m → wfPartB ("Status") m = true →
      (ZohoCrm.get_tasks_by_status env st (some stage)).1 =
        vdict (filteredPartitionSpec ("Status") (lowerStr stage) m)) ∧
    ((ZohoCrm.get_leads env st).1 = vdict m → wfPartB ("Lead Status") m = true →
      (ZohoCrm.get_leads_by_status env st (some stage)).1 =
        vdict (filteredPartitionSpec ("Lead Status") (lowerStr stage) m)) ∧
    (∀ kv ∈ filteredPartitionSpec ("Stage") (lowerStr stage) m,
      kv.1 ∈ m.map Prod.fst ∧ kv.2 ≠ vlist []) := by
  have core : ∀ field, wfPartB field m = true →
      ZohoCrm.byFieldCore field (some stage) (vdict m) =
        .ok (vdict (filteredPartitionSpec field (lowerStr stage) m)) := by
    intro field hwf
    have hcon : pyContains (vstr ("Error")) (vdict m) = .ok false := by
      simp [pyContains, hne]
    simp only [ZohoCrm.byFieldCore, hcon]
    rw [if_neg hs]
    rw [filterLoop_wf field (lowerStr stage) m [] hwf hnd (by simp)]
    simp
  refine ⟨?_, ?_, ?_, filteredPartitionSpec_shape _ _ m⟩ <;> intro hm hwf <;>
    simp [ZohoCrm.get_deals_by_stage, ZohoCrm.get_tasks_by_status,
      ZohoCrm.get_leads_by_status, hm, core _ hwf, ZohoCrm.catchFilter]

/-- Witness instantiating the amended C5 on the one-owner Negotiation
partition, where the "closed won" filter drops owner A entirely. -/
theorem claim_C5_witness :
    ("closed won" : String) ≠ ("") ∧
    (ZohoCrm.get_deals_by_stage envC5 tokenState0 (some ("closed won"))).1 = vdict [] := by
  refine ⟨by decide, ?_⟩
  have h := (claim_C5 envC5 tokenState0 ("closed won")
    [(vstr ("A"), vlist [vdict [
      (vstr ("Deal ID"), vnull),
      (vstr ("Deal Name"), vstr ("Unnamed Deal")),
      (vstr ("Account Name"), vnull),
      (vstr ("Deal Owner"), vstr ("A")),
      (vstr ("Stage"), vstr ("Negotiation")),
      (vstr ("Amount"), vnull),
      (vstr ("Closing Date"), vnull),
      (vstr ("Service Line"), vnull),
      (vstr ("Accelerators/Personalized Service"), vnull),
      (vstr ("Tags"), vnull),
      (vstr ("Created Time"), vnull),
      (vstr ("Modified Time"), vnull)]])]
    (by decide) (by decide) (by decide)).1 rfl (by decide)
  exact h.trans (by decide)

/-- Keys surviving the string check of `sorted` all came from the
collected key set. -/
theorem allStrings_mem :
    ∀ (l : List Val) (ns : List String), ZohoUtils.allStrings l = some ns →
      ∀ s ∈ ns, vstr s ∈ l := by
  intro l
  induction l with
  | nil =>
    intro ns h s hs
    simp only [ZohoUtils.allStrings, Option.some.injEq] at h
    subst h
    simp at hs
  | cons v rest ih =>
    intro ns h s hs
    rcases v with _ | b | n | s0 | xs | kvs
    · simp [ZohoUtils.allStrings] at h
    · simp [ZohoUtils.allStrings] at h
    · simp [ZohoUtils.allStrings] at h
    · simp only [ZohoUtils.allStrings, Option.map_eq_some'] at h
      rcases h with ⟨ns', hns', rfl⟩
      rcases List.mem_cons.mp hs with rfl | hmem
      · exact List.mem_cons_self _ _
      · exact List.mem_cons_of_mem _ (ih ns' hns' s hmem)
    · simp [ZohoUtils.allStrings] at h
    · simp [ZohoUtils.allStrings] at h

/-- Numeric keys compare under the key comparison exactly by value. -/
theorem keyLeB_ofNum (a b : Val) (ha : ZohoUtils.isNumV a = true)
    (hb : ZohoUtils.isNumV b = true) (h : ZohoUtils.numVal a ≤ ZohoUtils.numVal b) :
    ZohoUtils.keyLeB a b = true := by
  rcases a with _ | ba | na | sa | xa | ka <;> rcases b with _ | bb | nb | sb | xb | kb <;>
    simp_all [ZohoUtils.isNumV, ZohoUtils.keyLeB, ZohoUtils.numVal]

/-- Witness instantiating keyLeB_ofNum at two concrete integer keys. -/
theorem keyLeB_ofNum_witness :
    ZohoUtils.isNumV (vint 2) = true ∧ ZohoUtils.numVal (vint 2) ≤ ZohoUtils.numVal (vint 5) ∧
    ZohoUtils.keyLeB (vint 2) (vint 5) = true :=
  ⟨rfl, by decide, keyLeB_ofNum (vint 2) (vint 5) rfl rfl (by decide)⟩

/-- Whatever key set `sorted` receives, the returned value is a list of
keys drawn from that set, sorted under the key comparison: all-string and
all-number sets are sorted, sets of at most one element need no
comparison, and an incomparable mix takes the TypeError path to the empty
list. -/
theorem pySortedKeys_spec (ks : List Val) :
    ∃ keys : List Val,
      (match ZohoUtils.pySortedKeys ks with
       | some out => vlist out
       | none => vlist []) = vlist keys ∧
      (∀ k ∈ keys, k ∈ ks) ∧
      List.Sorted (fun a b => ZohoUtils.keyLeB a b = true) keys := by
  rcases hA : ZohoUtils.allStrings ks with _ | ns
  · by_cases hn : ZohoUtils.allNums ks = true
    · refine ⟨ZohoUtils.sortNums ks, by simp [ZohoUtils.pySortedKeys, hA, hn], ?_, ?_⟩
      · intro k hk
        simpa [ZohoUtils.sortNums] using hk
      · have hn' : ∀ k ∈ ks, ZohoUtils.isNumV k = true := by
          simpa [ZohoUtils.allNums, List.all_eq_true] using hn
        have hs := List.sorted_insertionSort
          (fun a b : Val => ZohoUtils.numVal a ≤ ZohoUtils.numVal b) ks
        refine hs.imp_of_mem ?_
        intro a b ha hb hr
        have ha' : a ∈ ks := by simpa [ZohoUtils.sortNums] using ha
        have hb' : b ∈ ks := by simpa [ZohoUtils.sortNums] using hb
        exact keyLeB_ofNum a b (hn' a ha') (hn' b hb') hr
    · by_cases hl : ks.length ≤ 1
      · refine ⟨ks, by simp [ZohoUtils.pySortedKeys, hA, hn, hl], fun k hk => hk, ?_⟩
        rcases ks with _ | ⟨x, _ | ⟨y, rest⟩⟩
        · exact List.sorted_nil
        · exact List.sorted_singleton x
        · simp at hl
      · exact ⟨[], by simp [ZohoUtils.pySortedKeys, hA, hn, hl], by simp, List.sorted_nil⟩
  · refine ⟨(ZohoUtils.sortStrings ns).map vstr, by simp [ZohoUtils.pySortedKeys, hA], ?_, ?_⟩
    · intro k hk
      rcases List.mem_map.mp hk with ⟨s, hsmem, rfl⟩
      have hsns : s ∈ ns := by simpa [ZohoUtils.sortStrings] using hsmem
      exact allStrings_mem ks ns hA s hsns
    · have hs := List.sorted_insertionSort (fun a b : String => a ≤ b) ns
      have hpw : List.Pairwise
          (fun a b : String => ZohoUtils.keyLeB (vstr a) (vstr b) = true)
          (ZohoUtils.sortStrings ns) :=
        hs.imp (fun h => by simpa [ZohoUtils.keyLeB] using h)
      exact (List.pairwise_map).mpr hpw

/-- C10: `get_all_owners` always returns a sorted list of owner keys free
of the reserved sentinels "No Deals", "No Leads", "No Tasks" and "Error",
whatever the three underlying fetches return — lexicographically sorted
when the collected keys are strings, sorted by value when they are
numbers; a deal owner named by the integer 5 yields `[5]` (`sorted`
succeeds on a homogeneous non-string key set, while `get_leads` and
`get_tasks` skip the record at `strip()`), and an incomparable string/int
key mix makes `sorted` raise TypeError so the except path returns the
empty list. -/
theorem claim_C10 (env : ApiEnv) (st : ApiState) :
    (∃ keys : List Val,
      (ZohoUtils.get_all_owners env st).1 = vlist keys ∧
      keys.all (fun k => decide (k ≠ vstr ("No Deals")) && decide (k ≠ vstr ("No Leads")) &&
        decide (k ≠ vstr ("No Tasks")) && decide (k ≠ vstr ("Error"))) = true ∧
      List.Sorted (fun a b => ZohoUtils.keyLeB a b = true) keys) ∧
    (ZohoUtils.get_all_owners envC10int tokenState0).1 = vlist [vint 5] ∧
    (ZohoUtils.get_all_owners envC10mixed tokenState0).1 = vlist [] := by
  refine ⟨?_, by rfl, by rfl⟩
  simp only [ZohoUtils.get_all_owners]
  generalize ((ZohoUtils.collectKeys (ZohoUtils.get_deals env st none).1 ++
      ZohoUtils.collectKeys
        (ZohoUtils.get_leads env (ZohoUtils.get_deals env st none).2 none).1 ++
      ZohoUtils.collectKeys
        (ZohoUtils.get_tasks env
          (ZohoUtils.get_leads env (ZohoUtils.get_deals env st none).2 none).2 none).1).foldl
      ZohoUtils.addUnique []) = collected
  rcases pySortedKeys_spec (collected.filter (fun k =>
      decide (k ≠ vstr ("No Deals")) && decide (k ≠ vstr ("No Leads")) &&
      decide (k ≠ vstr ("No Tasks")) && decide (k ≠ vstr ("Error"))))
    with ⟨keys, heq, hmem, hsort⟩
  refine ⟨keys, heq, ?_, hsort⟩
  simp only [List.all_eq_true]
  intro k hk
  exact (List.mem_filter.mp (hmem k hk)).2
